import Mathlib

/-!
Shallow embedding of the license-activation service in `src/api/main.py`.

The store (SQLAlchemy tables `product_keys` and `activations`) is modelled
as explicit lists of rows; the per-request database session becomes explicit
state passing.  Timestamps are natural numbers counting days (the code only
ever adds `timedelta(days=365*10)` to the current instant, so days are the
natural unit).  JWT signing (the external PyJWT library, HMAC-SHA256) is
modelled abstractly: a token is its payload together with the key that
signed it, and decoding succeeds exactly when the verifying key equals the
signing key.
-/

/-- Row of the `product_keys` table (`class ProductKey` in `main.py`). -/
structure ProductKey where
  id : Nat
  key_string : String
  max_activations : Int
  is_active : Bool
deriving DecidableEq

/-- Row of the `activations` table (`class Activation` in `main.py`).
`machine_id` carries a table-wide unique constraint in the schema. -/
structure Activation where
  id : Nat
  product_key_id : Nat
  machine_id : String
  activation_date : Nat
deriving DecidableEq

/-- The persistent store: both tables plus the autoincrement counter for
`activations.id`. -/
structure Db where
  product_keys : List ProductKey
  activations : List Activation
  next_activation_id : Nat
deriving DecidableEq

/-- Request body of `POST /activate` (`class ActivationRequest`). -/
structure ActivationRequest where
  product_key : String
  machine_id : String
deriving DecidableEq

/-- JWT payload built in `activate_license` (`license_payload`). -/
structure LicensePayload where
  machine_id : String
  product_key : String
  exp : Nat
deriving DecidableEq

/-- Abstract model of a signed JWT: the payload together with the signing
secret that produced the signature. -/
structure Jwt where
  payload : LicensePayload
  signing_secret : String
deriving DecidableEq

/-- Successful response body of `POST /activate`. -/
structure ActivateResponse where
  status : String
  license_key : Jwt
deriving DecidableEq

/-- `jwt.encode(payload, secret, algorithm="HS256")`. -/
def jwt_encode (payload : LicensePayload) (secret : String) : Jwt :=
  { payload := payload, signing_secret := secret }

/-- `jwt.decode` under a verifying secret: succeeds exactly when the
verifying secret matches the signing secret (abstract HMAC model). -/
def jwt_decode (token : Jwt) (secret : String) : Option LicensePayload :=
  if token.signing_secret = secret then some token.payload else none

/-- Failure modes of `activate_license`: the two `HTTPException`s raised
explicitly by the handler, plus the uniqueness-violation the store could
raise on insert (not caught by the handler). -/
inductive ActivateError
  | keyNotFound
  | quotaExceeded
  | conflict
deriving DecidableEq

/-- Uniqueness violation raised by the store on a duplicate-`machine_id`
insert. -/
inductive ConflictError
  | conflict
deriving DecidableEq

/-- `db.query(ProductKey).filter(ProductKey.key_string == k).first()`. -/
def find_key_by_string (db : Db) (key_string : String) : Option ProductKey :=
  db.product_keys.find? (fun pk => pk.key_string == key_string)

/-- `db.query(Activation).filter(Activation.machine_id == m).first()`. -/
def find_activation_by_machine (db : Db) (machine_id : String) : Option Activation :=
  db.activations.find? (fun a => a.machine_id == machine_id)

/-- `db.query(Activation).filter(Activation.product_key_id == pk.id).count()`. -/
def count_activations (db : Db) (product_key_id : Nat) : Nat :=
  (db.activations.filter (fun a => a.product_key_id == product_key_id)).length

/-- The state after inserting one new `Activation` row
(`db.add(new_activation); db.commit()`). -/
def insert_activation (db : Db) (product_key_id : Nat) (machine_id : String)
    (now : Nat) : Db :=
  { db with
    activations := db.activations ++
      [{ id := db.next_activation_id, product_key_id := product_key_id,
         machine_id := machine_id, activation_date := now }],
    next_activation_id := db.next_activation_id + 1 }

/-- Store-level insert honouring the unique constraint on
`activations.machine_id`: fails with `ConflictError` when the machine
already has a row. -/
def create_activation (db : Db) (product_key_id : Nat) (machine_id : String)
    (now : Nat) : Except ConflictError Db :=
  if db.activations.any (fun a => a.machine_id == machine_id) then
    .error .conflict
  else
    .ok (insert_activation db product_key_id machine_id now)

/-- `timedelta(days=365 * 10)` measured in days. -/
def license_duration_days : Nat := 365 * 10

/-- The `license_payload` dict built on success: the presented machine id
and product-key string, expiring `365 * 10` days after issuance. -/
def issued_payload (req : ActivationRequest) (now : Nat) : LicensePayload :=
  { machine_id := req.machine_id, product_key := req.product_key,
    exp := now + license_duration_days }

/-- The JSON body returned on success:
`{"status": "success", "license_key": license_jwt}`. -/
def success_response (secret : String) (req : ActivationRequest) (now : Nat) :
    ActivateResponse :=
  { status := "success", license_key := jwt_encode (issued_payload req now) secret }

/-- The body of `activate_license` in `main.py`, translated clause by
clause: key lookup (404 if absent or inactive), lookup of any existing
activation for the machine, activation count for the key, the quota check
(403 when the count has reached `max_activations` and the machine has no
existing activation anywhere), the conditional insert, and credential
issuance.  Returns the updated store together with the response. -/
def activate_license (secret : String) (db : Db) (req : ActivationRequest)
    (now : Nat) : Except ActivateError (Db × ActivateResponse) :=
  match find_key_by_string db req.product_key with
  | none => .error .keyNotFound
  | some product_key =>
    if product_key.is_active = false then .error .keyNotFound
    else
      let existing := find_activation_by_machine db req.machine_id
      let activation_count := count_activations db product_key.id
      if (activation_count : Int) ≥ product_key.max_activations ∧ existing = none then
        .error .quotaExceeded
      else
        let write : Except ConflictError Db :=
          if existing = none then
            create_activation db product_key.id req.machine_id now
          else
            .ok db
        match write with
        | .error _ => .error .conflict
        | .ok db2 => .ok (db2, success_response secret req now)

/-- The store state visible after a call: the updated store on success, the
unchanged store when an exception was raised. -/
def db_after (secret : String) (db : Db) (req : ActivationRequest) (now : Nat) : Db :=
  match activate_license secret db req now with
  | .ok (db2, _) => db2
  | .error _ => db

/-- Outcome of one HTTP request: a 200 JSON body, or an `HTTPException`
with a status code and detail string. -/
inductive HttpOutcome
  | success (body : ActivateResponse)
  | httpError (statusCode : Nat) (detail : String)
deriving DecidableEq

/-- HTTP status code of each failure (`HTTPException(status_code=...)`;
an uncaught store conflict surfaces as FastAPI's generic 500). -/
def error_status : ActivateError → Nat
  | .keyNotFound => 404
  | .quotaExceeded => 403
  | .conflict => 500

/-- Detail string of each failure, from the `HTTPException` calls. -/
def error_detail : ActivateError → String
  | .keyNotFound => "产品密钥无效或已被禁用"
  | .quotaExceeded => "此产品密钥的激活次数已达上限"
  | .conflict => "Internal Server Error"

/-- The full `POST /activate` endpoint including the `get_db` dependency:
when `SessionLocal` is unconfigured (`DATABASE_URL` absent) the dependency
raises a 500 before the handler runs. -/
def post_activate (secret : String) (sessionLocal : Option Db)
    (req : ActivationRequest) (now : Nat) : HttpOutcome :=
  match sessionLocal with
  | none => .httpError 500 "数据库未配置"
  | some db =>
    match activate_license secret db req now with
    | .error e => .httpError (error_status e) (error_detail e)
    | .ok (_, resp) => .success resp

/-- Primary-key well-formedness of the `product_keys` table: ids are
pairwise distinct. -/
def keys_wf (db : Db) : Prop :=
  db.product_keys.Pairwise (fun p q => p.id ≠ q.id)

/-- The §3 invariant: every product key's activation count is within its
quota. -/
def count_invariant (db : Db) : Prop :=
  ∀ pk ∈ db.product_keys, (count_activations db pk.id : Int) ≤ pk.max_activations

/-- Store states reachable from `db0` by any finite sequence of
sequential (non-concurrent) `activate` calls. -/
inductive Reaches (db0 : Db) : Db → Prop
  | refl : Reaches db0 db0
  | step (db : Db) (secret : String) (req : ActivationRequest) (now : Nat) :
      Reaches db0 db → Reaches db0 (db_after secret db req now)

/-! ### A concrete sample store, used by the witnesses -/

/-- Sample key A (`ABC-123`, quota 1, active). -/
def pkA : ProductKey :=
  { id := 1, key_string := "ABC-123", max_activations := 1, is_active := true }

/-- Sample key B (`XYZ-999`, quota 1, active). -/
def pkB : ProductKey :=
  { id := 2, key_string := "XYZ-999", max_activations := 1, is_active := true }

/-- Sample disabled key (`OFF-000`). -/
def pkOff : ProductKey :=
  { id := 3, key_string := "OFF-000", max_activations := 1, is_active := false }

/-- Sample activation binding machine `mach-A` to key A. -/
def actA : Activation :=
  { id := 0, product_key_id := 1, machine_id := "mach-A", activation_date := 0 }

/-- Sample activation binding machine `mach-B` to key B. -/
def actB : Activation :=
  { id := 1, product_key_id := 2, machine_id := "mach-B", activation_date := 0 }

/-- Store with the three sample keys and no activations. -/
def db0 : Db :=
  { product_keys := [pkA, pkB, pkOff], activations := [], next_activation_id := 0 }

/-- Store where `mach-A` has consumed key A's only slot. -/
def dbA : Db :=
  { product_keys := [pkA, pkB, pkOff], activations := [actA], next_activation_id := 1 }

/-- Store where key A and key B are both exhausted. -/
def dbAB : Db :=
  { product_keys := [pkA, pkB, pkOff], activations := [actA, actB], next_activation_id := 2 }

/-! ### Branch characterizations of `activate_license` -/

lemma activate_of_key_absent (secret : String) (db : Db) (req : ActivationRequest)
    (now : Nat) (hfind : find_key_by_string db req.product_key = none) :
    activate_license secret db req now = .error .keyNotFound := by
  simp [activate_license, hfind]

lemma activate_of_key_inactive (secret : String) (db : Db) (req : ActivationRequest)
    (now : Nat) (pk : ProductKey)
    (hfind : find_key_by_string db req.product_key = some pk)
    (hact : pk.is_active = false) :
    activate_license secret db req now = .error .keyNotFound := by
  simp [activate_license, hfind, hact]

lemma activate_of_quota (secret : String) (db : Db) (req : ActivationRequest)
    (now : Nat) (pk : ProductKey)
    (hfind : find_key_by_string db req.product_key = some pk)
    (hact : pk.is_active = true)
    (hex : find_activation_by_machine db req.machine_id = none)
    (hq : (count_activations db pk.id : Int) ≥ pk.max_activations) :
    activate_license secret db req now = .error .quotaExceeded := by
  simp [activate_license, hfind, hact, hex, hq]

lemma create_activation_of_no_existing (db : Db) (product_key_id : Nat)
    (machine_id : String) (now : Nat)
    (hex : find_activation_by_machine db machine_id = none) :
    create_activation db product_key_id machine_id now =
      .ok (insert_activation db product_key_id machine_id now) := by
  have h := List.find?_eq_none.mp hex
  simp only [create_activation]
  rw [if_neg]
  simp only [List.any_eq_true, not_exists]
  intro a ha
  exact h a ha.1 ha.2

lemma activate_of_fresh (secret : String) (db : Db) (req : ActivationRequest)
    (now : Nat) (pk : ProductKey)
    (hfind : find_key_by_string db req.product_key = some pk)
    (hact : pk.is_active = true)
    (hex : find_activation_by_machine db req.machine_id = none)
    (hq : ¬ (count_activations db pk.id : Int) ≥ pk.max_activations) :
    activate_license secret db req now =
      .ok (insert_activation db pk.id req.machine_id now,
           success_response secret req now) := by
  simp [activate_license, hfind, hact, hex, hq,
    create_activation_of_no_existing db pk.id req.machine_id now hex]

lemma activate_of_existing (secret : String) (db : Db) (req : ActivationRequest)
    (now : Nat) (pk : ProductKey) (a : Activation)
    (hfind : find_key_by_string db req.product_key = some pk)
    (hact : pk.is_active = true)
    (hex : find_activation_by_machine db req.machine_id = some a) :
    activate_license secret db req now = .ok (db, success_response secret req now) := by
  simp [activate_license, hfind, hact, hex]

/-- Every call lands in exactly one of the four real outcomes; the store
conflict branch is never among them. -/
lemma activate_total (secret : String) (db : Db) (req : ActivationRequest) (now : Nat) :
    activate_license secret db req now = .error .keyNotFound ∨
    activate_license secret db req now = .error .quotaExceeded ∨
    (∃ a, find_activation_by_machine db req.machine_id = some a ∧
      activate_license secret db req now = .ok (db, success_response secret req now)) ∨
    (∃ pk, find_key_by_string db req.product_key = some pk ∧ pk.is_active = true ∧
      find_activation_by_machine db req.machine_id = none ∧
      ¬ (count_activations db pk.id : Int) ≥ pk.max_activations ∧
      activate_license secret db req now =
        .ok (insert_activation db pk.id req.machine_id now,
             success_response secret req now)) := by
  cases hfind : find_key_by_string db req.product_key with
  | none => exact Or.inl (activate_of_key_absent secret db req now hfind)
  | some pk =>
    cases hact : pk.is_active with
    | false => exact Or.inl (activate_of_key_inactive secret db req now pk hfind hact)
    | true =>
      cases hex : find_activation_by_machine db req.machine_id with
      | some a =>
        exact Or.inr (Or.inr (Or.inl
          ⟨a, rfl, activate_of_existing secret db req now pk a hfind hact hex⟩))
      | none =>
        by_cases hq : (count_activations db pk.id : Int) ≥ pk.max_activations
        · exact Or.inr (Or.inl (activate_of_quota secret db req now pk hfind hact hex hq))
        · exact Or.inr (Or.inr (Or.inr
            ⟨pk, rfl, hact, rfl, hq,
             activate_of_fresh secret db req now pk hfind hact hex hq⟩))

/-- Any successful call returns exactly the success body built from the
request, the issuance time and the signing secret. -/
lemma activate_ok_resp (secret : String) (db : Db) (req : ActivationRequest)
    (now : Nat) (db2 : Db) (resp : ActivateResponse)
    (h : activate_license secret db req now = .ok (db2, resp)) :
    resp = success_response secret req now := by
  rcases activate_total secret db req now with h1 | h1 | ⟨a, _, h1⟩ | ⟨pk, _, _, _, _, h1⟩ <;>
    rw [h1] at h
  · exact absurd h (by simp)
  · exact absurd h (by simp)
  · exact (Prod.mk.injEq .. ▸ Except.ok.injEq .. ▸ h).2.symm
  · exact (Prod.mk.injEq .. ▸ Except.ok.injEq .. ▸ h).2.symm

/-- The conflict branch is unreachable: the insert only runs when the
machine-lookup came back empty. -/
lemma activate_never_conflict (secret : String) (db : Db) (req : ActivationRequest)
    (now : Nat) : activate_license secret db req now ≠ .error .conflict := by
  rcases activate_total secret db req now with h1 | h1 | ⟨a, _, h1⟩ | ⟨pk, _, _, _, _, h1⟩ <;>
    rw [h1] <;> simp

/-- The state after a call is the old state, or the old state with one
fresh row inserted for the key that was found, under its quota. -/
lemma db_after_cases (secret : String) (db : Db) (req : ActivationRequest) (now : Nat) :
    db_after secret db req now = db ∨
    (∃ pk, find_key_by_string db req.product_key = some pk ∧ pk.is_active = true ∧
      find_activation_by_machine db req.machine_id = none ∧
      ¬ (count_activations db pk.id : Int) ≥ pk.max_activations ∧
      db_after secret db req now = insert_activation db pk.id req.machine_id now) := by
  rcases activate_total secret db req now with h1 | h1 | ⟨a, _, h1⟩ |
      ⟨pk, hfind, hact, hex, hq, h1⟩
  · exact Or.inl (by simp [db_after, h1])
  · exact Or.inl (by simp [db_after, h1])
  · exact Or.inl (by simp [db_after, h1])
  · exact Or.inr ⟨pk, hfind, hact, hex, hq, by simp [db_after, h1]⟩

/-- Inserting one row changes exactly the count of the key it references,
by one. -/
lemma count_activations_insert (db : Db) (product_key_id : Nat) (machine_id : String)
    (now : Nat) (other_id : Nat) :
    count_activations (insert_activation db product_key_id machine_id now) other_id =
      count_activations db other_id + (if product_key_id = other_id then 1 else 0) := by
  simp only [count_activations, insert_activation, List.filter_append, List.length_append]
  congr 1
  simp only [List.filter, beq_iff_eq]
  split <;> simp_all

/-- In a table with pairwise-distinct primary keys, equal ids force equal
rows. -/
lemma keys_wf_id_inj {l : List ProductKey}
    (h : l.Pairwise (fun p q => p.id ≠ q.id)) :
    ∀ a ∈ l, ∀ b ∈ l, a.id = b.id → a = b := by
  induction l with
  | nil => intro a ha; exact absurd ha (List.not_mem_nil a)
  | cons x xs ih =>
    rcases List.pairwise_cons.mp h with ⟨hx, hxs⟩
    intro a ha b hb hid
    rcases List.mem_cons.mp ha with rfl | ha2 <;> rcases List.mem_cons.mp hb with rfl | hb2
    · rfl
    · exact absurd hid (hx b hb2)
    · exact absurd hid.symm (hx a ha2)
    · exact ih hxs a ha2 b hb2 hid

/-- One sequential `activate` call preserves primary-key well-formedness
and the §3 quota invariant. -/
lemma step_preserves (secret : String) (db : Db) (req : ActivationRequest) (now : Nat)
    (hwf : keys_wf db) (hinv : count_invariant db) :
    keys_wf (db_after secret db req now) ∧ count_invariant (db_after secret db req now) := by
  rcases db_after_cases secret db req now with h | ⟨pk, hfind, _, _, hq, h⟩
  · rw [h]; exact ⟨hwf, hinv⟩
  · rw [h]
    have hmem : pk ∈ db.product_keys :=
      List.mem_of_find?_eq_some hfind
    constructor
    · exact hwf
    · intro pk2 hpk2
      have hpk2' : pk2 ∈ db.product_keys := hpk2
      rw [count_activations_insert]
      by_cases hid : pk.id = pk2.id
      · have : pk = pk2 := keys_wf_id_inj hwf pk hmem pk2 hpk2' hid
        subst this
        simp only [if_pos rfl]
        push_cast
        omega
      · simp only [if_neg hid, Nat.add_zero]
        exact hinv pk2 hpk2'

/-! ### Claim theorems -/

/-- Claim C1: on a valid, active key, an `activate` call fails with
`QuotaExceededError` if and only if the key's activation count has reached
`max_activations` and the machine has no existing activation anywhere in
the system; in every other case the call succeeds — so with
`max_activations = N` the N-th fresh machine succeeds and the (N+1)-th
fails. -/
theorem activate_quota_check_iff (secret : String) (db : Db) (req : ActivationRequest)
    (now : Nat) (pk : ProductKey)
    (hfind : find_key_by_string db req.product_key = some pk)
    (hact : pk.is_active = true) :
    (activate_license secret db req now = .error .quotaExceeded ↔
      ((count_activations db pk.id : Int) ≥ pk.max_activations ∧
        find_activation_by_machine db req.machine_id = none)) ∧
    (¬ ((count_activations db pk.id : Int) ≥ pk.max_activations ∧
        find_activation_by_machine db req.machine_id = none) →
      ∃ db2 resp, activate_license secret db req now = .ok (db2, resp)) := by
  cases hex : find_activation_by_machine db req.machine_id with
  | some a =>
    have hok := activate_of_existing secret db req now pk a hfind hact hex
    exact ⟨by rw [hok]; simp, fun _ => ⟨db, success_response secret req now, hok⟩⟩
  | none =>
    by_cases hq : (count_activations db pk.id : Int) ≥ pk.max_activations
    · have herr := activate_of_quota secret db req now pk hfind hact hex hq
      exact ⟨by rw [herr]; simp [hq], fun hn => absurd ⟨hq, rfl⟩ hn⟩
    · have hok := activate_of_fresh secret db req now pk hfind hact hex hq
      exact ⟨by rw [hok]; simp [hq], fun _ =>
        ⟨insert_activation db pk.id req.machine_id now, success_response secret req now, hok⟩⟩

/-- Witness for C1: in the sample store where `ABC-123` (quota 1) is
exhausted by `mach-A`, a fresh machine `mach-C` is rejected with
`QuotaExceededError`. -/
theorem activate_quota_check_iff_witness :
    activate_license "secret" dbA { product_key := "ABC-123", machine_id := "mach-C" } 0 =
      .error .quotaExceeded :=
  ((activate_quota_check_iff "secret" dbA
      { product_key := "ABC-123", machine_id := "mach-C" } 0 pkA
      (by decide) (by decide)).1).mpr (by decide)

/-- Claim C3: cross-key bypass — a machine already holding an activation
row on another key, presenting a distinct valid active key whose quota is
already exhausted, still succeeds; the credential's `product_key` payload
field is the presented key, and the store is unchanged (no new row for
that key). -/
theorem activate_cross_key_bypass (secret : String) (db : Db) (now : Nat)
    (kb m : String) (pkb : ProductKey) (a : Activation)
    (hfind : find_key_by_string db kb = some pkb)
    (hact : pkb.is_active = true)
    (hex : find_activation_by_machine db m = some a)
    (_hother : a.product_key_id ≠ pkb.id)
    (_hq : (count_activations db pkb.id : Int) ≥ pkb.max_activations) :
    activate_license secret db { product_key := kb, machine_id := m } now =
      .ok (db, success_response secret { product_key := kb, machine_id := m } now) ∧
    (success_response secret { product_key := kb, machine_id := m } now
      ).license_key.payload.product_key = kb :=
  ⟨activate_of_existing secret db { product_key := kb, machine_id := m } now pkb a
      hfind hact hex, rfl⟩

/-- Witness for C3: `mach-A` (activated on key A) presents the exhausted
key B and still receives a success response naming key B, with the store
unchanged. -/
theorem activate_cross_key_bypass_witness :
    activate_license "secret" dbAB { product_key := "XYZ-999", machine_id := "mach-A" } 0 =
      .ok (dbAB, success_response "secret"
        { product_key := "XYZ-999", machine_id := "mach-A" } 0) ∧
    (success_response "secret" { product_key := "XYZ-999", machine_id := "mach-A" } 0
      ).license_key.payload.product_key = "XYZ-999" :=
  activate_cross_key_bypass "secret" dbAB 0 "XYZ-999" "mach-A" pkB actA
    (by decide) (by decide) (by decide) (by decide) (by decide)

/-- Claim C4: idempotency — a machine that already holds the activation row
of the presented key succeeds again, the store is unchanged, and the
activation count of that key is unchanged. -/
theorem activate_idempotent (secret : String) (db : Db) (now : Nat)
    (ka m : String) (pka : ProductKey) (a : Activation)
    (hfind : find_key_by_string db ka = some pka)
    (hact : pka.is_active = true)
    (hex : find_activation_by_machine db m = some a)
    (_hsame : a.product_key_id = pka.id) :
    (∃ resp, activate_license secret db { product_key := ka, machine_id := m } now =
        .ok (db, resp) ∧ resp.status = "success") ∧
    count_activations (db_after secret db { product_key := ka, machine_id := m } now) pka.id =
      count_activations db pka.id := by
  have hok := activate_of_existing secret db { product_key := ka, machine_id := m } now
    pka a hfind hact hex
  exact ⟨⟨success_response secret _ now, hok, rfl⟩, by simp [db_after, hok]⟩

/-- Witness for C4: repeating `activate("ABC-123", "mach-A")` on the store
where that pair is already activated succeeds and leaves key A's count
unchanged. -/
theorem activate_idempotent_witness :
    (∃ resp, activate_license "secret" dbA
        { product_key := "ABC-123", machine_id := "mach-A" } 0 =
        .ok (dbA, resp) ∧ resp.status = "success") ∧
    count_activations (db_after "secret" dbA
        { product_key := "ABC-123", machine_id := "mach-A" } 0) pkA.id =
      count_activations dbA pkA.id :=
  activate_idempotent "secret" dbA 0 "ABC-123" "mach-A" pkA actA
    (by decide) (by decide) (by decide) (by decide)

/-- Claim C5: an unknown key string and a disabled key fail identically
with `KeyNotFoundError`, surfaced as the same 404 response, for every
machine id; in particular a disabled key never succeeds. -/
theorem activate_key_not_found (secret : String) (db : Db) (req : ActivationRequest)
    (now : Nat)
    (h : find_key_by_string db req.product_key = none ∨
      ∃ pk, find_key_by_string db req.product_key = some pk ∧ pk.is_active = false) :
    activate_license secret db req now = .error .keyNotFound ∧
    post_activate secret (some db) req now = .httpError 404 "产品密钥无效或已被禁用" := by
  have herr : activate_license secret db req now = .error .keyNotFound := by
    rcases h with h | ⟨pk, hfind, hact⟩
    · exact activate_of_key_absent secret db req now h
    · exact activate_of_key_inactive secret db req now pk hfind hact
  exact ⟨herr, by simp [post_activate, herr, error_status, error_detail]⟩

/-- Witness for C5: the disabled key `OFF-000` is rejected with the same
404 outcome as an unknown key. -/
theorem activate_key_not_found_witness :
    activate_license "secret" db0 { product_key := "OFF-000", machine_id := "mach-Z" } 0 =
      .error .keyNotFound ∧
    post_activate "secret" (some db0) { product_key := "OFF-000", machine_id := "mach-Z" } 0 =
      .httpError 404 "产品密钥无效或已被禁用" :=
  activate_key_not_found "secret" db0 { product_key := "OFF-000", machine_id := "mach-Z" } 0
    (Or.inr ⟨pkOff, by decide, by decide⟩)

/-- Claim C2: sequential quota safety — from any well-formed store
satisfying the §3 invariant, every store reachable by a finite sequence of
non-concurrent `activate` calls still satisfies
`count(Activation where product_key_id = P.id) <= P.max_activations` for
every product key P. -/
theorem activate_preserves_count_invariant (dbInit dbFin : Db)
    (hwf : keys_wf dbInit) (hinv : count_invariant dbInit)
    (hreach : Reaches dbInit dbFin) :
    count_invariant dbFin := by
  suffices h : keys_wf dbFin ∧ count_invariant dbFin from h.2
  induction hreach with
  | refl => exact ⟨hwf, hinv⟩
  | step db1 secret req now _ ih => exact step_preserves secret db1 req now ih.1 ih.2

/-- Witness for C2: after activating `mach-A` on `ABC-123` in the empty
sample store, every key is still within quota. -/
theorem activate_preserves_count_invariant_witness :
    count_invariant (db_after "secret" db0
      { product_key := "ABC-123", machine_id := "mach-A" } 0) :=
  activate_preserves_count_invariant db0 _ (by unfold keys_wf; decide)
    (by unfold count_invariant; decide)
    (Reaches.step db0 "secret" { product_key := "ABC-123", machine_id := "mach-A" } 0
      Reaches.refl)

/-- Claim C6: credential round-trip — every successful call issues a token
that decodes, under the configured signing secret, to the presented machine
id and product-key string with expiration exactly `365 * 10` days after
issuance, and fails to decode under any other secret. -/
theorem credential_round_trip (secret : String) (db : Db) (req : ActivationRequest)
    (now : Nat) (db2 : Db) (resp : ActivateResponse)
    (h : activate_license secret db req now = .ok (db2, resp)) :
    jwt_decode resp.license_key secret =
      some { machine_id := req.machine_id, product_key := req.product_key,
             exp := now + 365 * 10 } ∧
    ∀ other : String, other ≠ secret → jwt_decode resp.license_key other = none := by
  have hresp := activate_ok_resp secret db req now db2 resp h
  subst hresp
  constructor
  · simp [jwt_decode, jwt_encode, success_response, issued_payload, license_duration_days]
  · intro other hne
    simp only [success_response, jwt_encode, jwt_decode]
    rw [if_neg (fun hc => hne hc.symm)]

/-- Witness for C6: the credential issued to `mach-A` for `ABC-123` at time
0 decodes correctly under the signing secret and not under another one. -/
theorem credential_round_trip_witness :
    jwt_decode (success_response "secret"
        { product_key := "ABC-123", machine_id := "mach-A" } 0).license_key "secret" =
      some { machine_id := "mach-A", product_key := "ABC-123", exp := 0 + 365 * 10 } ∧
    jwt_decode (success_response "secret"
        { product_key := "ABC-123", machine_id := "mach-A" } 0).license_key "wrong" = none := by
  have h := credential_round_trip "secret" db0
    { product_key := "ABC-123", machine_id := "mach-A" } 0
    (insert_activation db0 1 "mach-A" 0)
    (success_response "secret" { product_key := "ABC-123", machine_id := "mach-A" } 0)
    rfl
  exact ⟨h.1, h.2 "wrong" (by decide)⟩

/-- Claim C7: every `POST /activate` outcome is exactly one of the four
documented responses — 500 when the store is unconfigured, otherwise 200
with a success body, 404 for an invalid or disabled key, or 403 for an
exhausted quota, each failure kind with its own status. -/
theorem post_activate_response_mapping (secret : String) (sess : Option Db)
    (req : ActivationRequest) (now : Nat) :
    (sess = none → post_activate secret sess req now = .httpError 500 "数据库未配置") ∧
    (∀ db, sess = some db →
      ((∃ db2 resp, activate_license secret db req now = .ok (db2, resp) ∧
          post_activate secret sess req now = .success resp ∧ resp.status = "success") ∨
       (activate_license secret db req now = .error .keyNotFound ∧
          post_activate secret sess req now = .httpError 404 "产品密钥无效或已被禁用") ∨
       (activate_license secret db req now = .error .quotaExceeded ∧
          post_activate secret sess req now = .httpError 403 "此产品密钥的激活次数已达上限"))) := by
  constructor
  · rintro rfl; rfl
  · rintro db rfl
    rcases activate_total secret db req now with h1 | h1 | ⟨a, _, h1⟩ | ⟨pk, _, _, _, _, h1⟩
    · exact Or.inr (Or.inl ⟨h1, by simp [post_activate, h1, error_status, error_detail]⟩)
    · exact Or.inr (Or.inr ⟨h1, by simp [post_activate, h1, error_status, error_detail]⟩)
    · exact Or.inl ⟨db, success_response secret req now, h1,
        by simp [post_activate, h1], rfl⟩
    · exact Or.inl ⟨insert_activation db pk.id req.machine_id now,
        success_response secret req now, h1, by simp [post_activate, h1], rfl⟩

/-- Witness for C7: with no configured store, the endpoint answers 500 with
the `get_db` detail string. -/
theorem post_activate_response_mapping_witness :
    post_activate "secret" none { product_key := "ABC-123", machine_id := "mach-A" } 0 =
      .httpError 500 "数据库未配置" :=
  (post_activate_response_mapping "secret" none
      { product_key := "ABC-123", machine_id := "mach-A" } 0).1 rfl

/-- Claim C8: frame — an `activate` call never touches the `product_keys`
table, and either leaves the `activations` table unchanged or appends
exactly one new row (bound to the key it found), only in the
no-existing-activation case; pre-existing rows are never updated or
deleted. -/
theorem activate_frame (secret : String) (db : Db) (req : ActivationRequest) (now : Nat) :
    (db_after secret db req now).product_keys = db.product_keys ∧
    ((db_after secret db req now).activations = db.activations ∨
      (find_activation_by_machine db req.machine_id = none ∧
       ∃ pk, find_key_by_string db req.product_key = some pk ∧
         (db_after secret db req now).activations =
           db.activations ++
             [{ id := db.next_activation_id, product_key_id := pk.id,
                machine_id := req.machine_id, activation_date := now }])) := by
  rcases db_after_cases secret db req now with h | ⟨pk, hfind, _, hex, _, h⟩
  · rw [h]; exact ⟨rfl, Or.inl rfl⟩
  · rw [h]; exact ⟨rfl, Or.inr ⟨hex, pk, hfind, rfl⟩⟩

/-- Claim C9: atomicity on error — both failure checks precede the only
write, so a call that raises leaves the store exactly as it was. -/
theorem activate_error_leaves_store_unchanged (secret : String) (db : Db)
    (req : ActivationRequest) (now : Nat) (e : ActivateError)
    (h : activate_license secret db req now = .error e) :
    db_after secret db req now = db := by
  simp [db_after, h]

/-- Witness for C9: the failed activation of the unknown key `NO-SUCH`
leaves the sample store untouched. -/
theorem activate_error_leaves_store_unchanged_witness :
    db_after "secret" db0 { product_key := "NO-SUCH", machine_id := "mach-Z" } 0 = db0 :=
  activate_error_leaves_store_unchanged "secret" db0
    { product_key := "NO-SUCH", machine_id := "mach-Z" } 0 .keyNotFound rfl

/-- Claim C10: under sequential execution the store's uniqueness
constraint on `machine_id` can never fire: every call ends in
`KeyNotFoundError`, `QuotaExceededError` or success, so the
`ConflictError` branch of the insert is unreachable. -/
theorem activate_conflict_unreachable (secret : String) (db : Db)
    (req : ActivationRequest) (now : Nat) :
    activate_license secret db req now = .error .keyNotFound ∨
    activate_license secret db req now = .error .quotaExceeded ∨
    ∃ db2 resp, activate_license secret db req now = .ok (db2, resp) := by
  rcases activate_total secret db req now with h1 | h1 | ⟨a, _, h1⟩ | ⟨pk, _, _, _, _, h1⟩
  · exact Or.inl h1
  · exact Or.inr (Or.inl h1)
  · exact Or.inr (Or.inr ⟨db, success_response secret req now, h1⟩)
  · exact Or.inr (Or.inr ⟨insert_activation db pk.id req.machine_id now,
      success_response secret req now, h1⟩)
